import Mathlib

/-!
Verification of the dlopen2 loader core: a shallow embedding of the
symbol-resolution and container-construction logic of
`dlopen2/src/raw/common.rs`, `dlopen2/src/wrapper/{container,optional,option}.rs`,
`dlopen2/src/symbor/container.rs` and the field-loading code generation of
`dlopen2-derive/src/wrapper.rs`, together with theorems settling the spec
claims about error handling, all-or-nothing loading, destruction order and
the null-vs-absent symbol distinction.
-/

namespace Dlopen2

/-- Modelled from the spec: the error enum (`err.rs`) is not under `src/`;
variant names follow the spec taxonomy (§7).  Callers visible in `src/` show
the corresponding code variants: `Error::NullSymbol` and
`Error::SymbolGettingError(_)` (the spec's `SymbolNotFound`), and the `?` on
`CString::new` (the spec's `EncodingError`, code `NullCharacter`). -/
inductive Error where
  | OpenError
  | SymbolNotFound
  | NullSymbol
  | SizeMismatch
  | AddressLookupError
  | EncodingError
deriving DecidableEq, Repr

/-- A symbol name, as the byte string handed to the OS loader (0 is NUL). -/
abbrev Name := List Nat

/-- A loaded library as the backend sees it: its export table, mapping each
exported name to an address.  `(n, 0)` models a symbol exported with an
explicit null value, distinct from `n` being absent from the table. -/
structure RawLib where
  syms : List (Name × Nat)
deriving DecidableEq, Repr

/-- Export-table lookup: `some a` when the name is present (possibly with a
null address `a = 0`), `none` when absent. -/
def RawLib.lookup (lib : RawLib) (n : Name) : Option Nat :=
  lib.syms.lookup n

/-- Backend `get_sym` (`raw/unix.rs` / `raw/windows.rs`, called from
`Library::symbol_cstr` in `raw/common.rs`): resolves a name to a raw address.
Per the backend contract (spec §4.1) a present-but-null symbol is a success
with address 0; only a genuinely absent name is an error. -/
def get_sym (lib : RawLib) (n : Name) : Except Error Nat :=
  match lib.lookup n with
  | some a => .ok a
  | none => .error .SymbolNotFound

/-- The size of a pointer, `size_of::<*mut ()>()` on a 64-bit target. -/
def ptrSize : Nat := 8

/-- Outcome of `Library::symbol_cstr`: a panic (the size-mismatch programmer
error, `panic!` in `raw/common.rs` line 167), a returned `Err`, or a resolved
pointer-sized value (modelled by the address it was transmuted from). -/
inductive SymOutcome where
  | sizeMismatchPanic
  | err (e : Error)
  | ok (addr : Nat)
deriving DecidableEq, Repr

/-- `Library::symbol_cstr::<T>` (`raw/common.rs` lines 162-179), with the
requested type `T` represented by its size `tSize`: panic when `T` is not
pointer-sized, otherwise `get_sym`, then `Err(NullSymbol)` for a null address
and `Ok` of the transmuted value for a non-null one. -/
def symbol_cstr (tSize : Nat) (lib : RawLib) (n : Name) : SymOutcome :=
  if tSize ≠ ptrSize then .sizeMismatchPanic
  else
    match get_sym lib n with
    | .error e => .err e
    | .ok raw => if raw = 0 then .err .NullSymbol else .ok raw

/-- `Library::symbol::<T>` (`raw/common.rs` lines 154-159): converts the Rust
string to a C string first — `CString::new` fails on an embedded null byte
(`EncodingError`) — and only then calls `symbol_cstr`. -/
def symbol (tSize : Nat) (lib : RawLib) (n : Name) : SymOutcome :=
  if n.contains 0 then .err .EncodingError
  else symbol_cstr tSize lib n

/-- `Library::symbol_cstr` specialised to a pointer-sized `T`, as an
`Except`: exactly the body of `symbol_cstr` with the (statically false) size
guard dropped.  This is the form the derive-generated field loaders consume,
since every permitted field shape is pointer-sized. -/
def symbol_cstrE (lib : RawLib) (n : Name) : Except Error Nat :=
  match get_sym lib n with
  | .error e => .error e
  | .ok raw => if raw = 0 then .error .NullSymbol else .ok raw

/-- For pointer-sized `T` the full `symbol_cstr` never panics and agrees with
`symbol_cstrE`. -/
theorem symbol_cstr_ptrSize (lib : RawLib) (n : Name) :
    symbol_cstr ptrSize lib n =
      match symbol_cstrE lib n with
      | .error e => SymOutcome.err e
      | .ok a => SymOutcome.ok a := by
  unfold symbol_cstr symbol_cstrE
  simp only [ne_eq, not_true_eq_false, if_false, ite_not]
  cases get_sym lib n with
  | error e => simp
  | ok raw => by_cases h : raw = 0 <;> simp [h]

/-- `normal_field` (`dlopen2-derive/src/wrapper.rs` lines 95-103): the
generated loader for a mandatory field is `lib.symbol_cstr(...)?` — every
error aborts the whole `load`. -/
def normal_field (lib : RawLib) (n : Name) : Except Error Nat :=
  symbol_cstrE lib n

/-- `allow_null_field` (`dlopen2-derive/src/wrapper.rs` lines 105-123): the
loader for a raw-pointer field carrying the `dlopen2_allow_null` marker.
`Ok(val)` is kept, `Err(NullSymbol)` becomes a null pointer (address 0), any
other error is returned, aborting the whole `load`. -/
def allow_null_field (lib : RawLib) (n : Name) : Except Error Nat :=
  match symbol_cstrE lib n with
  | .ok v => .ok v
  | .error e =>
    match e with
    | .NullSymbol => .ok 0
    | _ => .error e

/-- `optional_field` (`dlopen2-derive/src/wrapper.rs` lines 125-142): the
loader for an `Option`-wrapped field.  `Ok(val)` becomes `Some(val)`, both
`Err(NullSymbol)` and `Err(SymbolGettingError(_))` (the spec's
`SymbolNotFound`) become `None`; any other error aborts the whole `load`. -/
def optional_field (lib : RawLib) (n : Name) : Except Error (Option Nat) :=
  match symbol_cstrE lib n with
  | .ok v => .ok (some v)
  | .error e =>
    match e with
    | .NullSymbol => .ok none
    | .SymbolNotFound => .ok none
    | _ => .error e

/-- The generated presence-query accessor `has_X` for an optional field
(`dlopen2-derive/src/wrapper.rs`, `field_to_wrapper`): `self.X.is_some()`. -/
def has_field (f : Option Nat) : Bool :=
  f.isSome

/-- The declared shape of a `WrapperApi` field, as `field_to_tokens` in
`dlopen2-derive/src/wrapper.rs` classifies the field type: a bare function,
a (possibly mutable) reference, a (possibly mutable) raw pointer, an
`Option` of some inner shape, or any other type path. -/
inductive FieldShape where
  | bareFn
  | reference (mutable : Bool)
  | rawPtr (mutable : Bool)
  | optionOf (inner : FieldShape)
  | otherPath
deriving DecidableEq, Repr

/-- Which of the three generated loaders a field gets. -/
inductive LoadStrategy where
  | normal
  | allowNull
  | optional
deriving DecidableEq, Repr

/-- `field_to_tokens` (`dlopen2-derive/src/wrapper.rs` lines 49-92): maps a
declared field shape and the presence of the `dlopen2_allow_null` marker to
a load strategy, or rejects the declaration at generation time (`panic!`,
modelled as `Except.error` with the panic message). -/
def field_to_tokens (shape : FieldShape) (allow_null : Bool) :
    Except String LoadStrategy :=
  match shape with
  | .bareFn =>
    if allow_null then
      .error "Only pointers can have the dlopen2_allow_null attribute assigned"
    else .ok .normal
  | .reference _ =>
    if allow_null then
      .error "Only pointers can have the dlopen2_allow_null attribute assigned"
    else .ok .normal
  | .rawPtr _ => if allow_null then .ok .allowNull else .ok .normal
  | .optionOf _ => .ok .optional
  | .otherPath =>
    .error "Only bare functions, optional bare functions, references and pointers are allowed in structures implementing WrapperApi trait"

/-- `field_to_wrapper` (`dlopen2-derive/src/wrapper.rs` lines 155-283)
succeeds (generates accessors, or intentionally generates none for a raw
pointer) exactly for these shapes; an `Option` of anything but a bare
function or reference panics at generation time. -/
def field_to_wrapper_ok : FieldShape → Bool
  | .bareFn => true
  | .reference _ => true
  | .rawPtr _ => true
  | .optionOf .bareFn => true
  | .optionOf (.reference _) => true
  | _ => false

/-- Whether dropping a value of this shape runs any code.  Rust function
pointers, references and raw pointers are `Copy` with no drop glue, and
`Option` of such a type has none either; an arbitrary other type may have a
destructor. -/
def FieldShape.hasDropGlue : FieldShape → Bool
  | .optionOf inner => inner.hasDropGlue
  | .otherPath => true
  | _ => false

/-- The process-wide loader bookkeeping that RAII makes implicit in the Rust
source: which OS handles are currently open.  `Library::open` allocates a
fresh handle; dropping a `Library` (its `Drop` impl calls `close_lib`)
removes it. -/
structure LoaderState where
  nextHandle : Nat
  opened : List Nat
deriving DecidableEq, Repr

/-- `Library::open` (`raw/common.rs` lines 66-73) against an environment in
which the path either resolves to a library (`some lib`) or fails to open
(`none`, the OS loader rejecting the path): on success a fresh handle is
allocated and recorded as open. -/
def Library.openSt (st : LoaderState) (env : Option RawLib) :
    Except Error (Nat × RawLib) × LoaderState :=
  match env with
  | none => (.error .OpenError, st)
  | some lib =>
    (.ok (st.nextHandle, lib), ⟨st.nextHandle + 1, st.nextHandle :: st.opened⟩)

/-- The `Drop` impl of `Library` (`raw/common.rs` lines 191-195): `close_lib`
unloads the handle. -/
def Library.dropSt (st : LoaderState) (h : Nat) : LoaderState :=
  ⟨st.nextHandle, st.opened.erase h⟩

/-- `Container` (`wrapper/container.rs` lines 47-55, and identically
`symbor/container.rs` lines 39-46): the library handle and the resolved API
structure co-located in one owning value.  The `lib` field is declared
before the `api` field in both source structs. -/
structure Container (Api : Type) where
  lib : Nat
  api : Api

/-- `Container::load` (`wrapper/container.rs` lines 62-71, and with the same
control flow `symbor/container.rs` lines 53-66): open the library (`?`
propagates an open failure), run the generated `T::load(&lib)`; on its
failure the `?` operator drops the already-opened `lib` (running its `Drop`)
and propagates the error; on success both are moved into the container. -/
def Container.load (Api : Type) (st : LoaderState) (env : Option RawLib)
    (apiLoad : RawLib → Except Error Api) :
    Except Error (Container Api) × LoaderState :=
  match Library.openSt st env with
  | (.error e, st1) => (.error e, st1)
  | (.ok (h, lib), st1) =>
    match apiLoad lib with
    | .error e => (.error e, Library.dropSt st1 h)
    | .ok api => (.ok ⟨h, api⟩, st1)

/-- `OptionalContainer` (`wrapper/optional.rs` lines 52-61): a library
handle, a mandatory API and an `Option` holding the optional API. -/
structure OptionalContainer (Api Opt : Type) where
  lib : Nat
  api : Api
  optional : Option Opt

/-- `OptionalContainer::load` (`wrapper/optional.rs` lines 71-81): open,
load the mandatory API with `?` (dropping the library and propagating on
failure), then `Optional::load(&lib).ok()` — the optional API's `Result`
collapsed to an `Option`, never consulted for the overall outcome. -/
def OptionalContainer.load (Api Opt : Type) (st : LoaderState)
    (env : Option RawLib) (apiLoad : RawLib → Except Error Api)
    (optLoad : RawLib → Except Error Opt) :
    Except Error (OptionalContainer Api Opt) × LoaderState :=
  match Library.openSt st env with
  | (.error e, st1) => (.error e, st1)
  | (.ok (h, lib), st1) =>
    match apiLoad lib with
    | .error e => (.error e, Library.dropSt st1 h)
    | .ok api => (.ok ⟨h, api, (optLoad lib).toOption⟩, st1)

/-- `impl WrapperApi for Option<T>` (`wrapper/option.rs` lines 5-17):
`T::load` mapped to `Ok(Some(val))` on success and `Ok(None)` on any
failure — it never returns an error. -/
def optionWrapperApiLoad (T : Type) (load : RawLib → Except Error T)
    (lib : RawLib) : Except Error (Option T) :=
  match load lib with
  | .ok val => .ok (some val)
  | .error _ => .ok none

/-- One step of the drop glue of a `Container` value. -/
inductive DropEvent where
  | unloadLib
  | dropApiField (idx : Nat)
deriving DecidableEq, Repr

/-- The drop glue of `Container` under Rust semantics: struct fields are
dropped in declaration order, and both `wrapper/container.rs` and
`symbor/container.rs` declare `lib: Library` before `api: T`, so the
`Library` (whose `Drop` unloads the OS handle) is dropped first and the
`numApiFields` fields of the API structure are discarded after it. -/
def Container.dropEvents (numApiFields : Nat) : List DropEvent :=
  DropEvent.unloadLib :: (List.range numApiFields).map DropEvent.dropApiField

/-- Process memory, for the data-symbol round trip: a value at every
address. -/
def Mem : Type := Nat → Int

/-- Writing through a resolved mutable reference: `*rust_i32_mut = v`. -/
def Mem.write (m : Mem) (addr : Nat) (v : Int) : Mem :=
  fun a => if a = addr then v else m a

/-- Reading through a resolved reference or raw pointer. -/
def Mem.read (m : Mem) (addr : Nat) : Int :=
  m addr

/-- A concrete export table for witnesses: `nameA` exported at address 5,
`nameB` exported with an explicit null value, `nameC` absent. -/
def exLib : RawLib :=
  ⟨[([97], 5), ([98], 0)]⟩

/-- A name present with a non-null address in `exLib`. -/
def nameA : Name := [97]

/-- A name present with a null address in `exLib`. -/
def nameB : Name := [98]

/-- A name absent from `exLib`. -/
def nameC : Name := [99]

/-- Claim C1: for every opened library and every pointer-sized type `T`,
resolving a symbol name performs a three-way split — `Ok(value)` when the
backend reports a non-null address, `Err(NullSymbol)` when it reports a
present-but-null symbol, `Err(SymbolNotFound)` when the name is absent — and
null is never conflated with not-found. -/
theorem resolve_symbol_three_way_split (tSize : Nat) (lib : RawLib) (n : Name)
    (h : tSize = ptrSize) :
    (symbol_cstr tSize lib n =
      match lib.lookup n with
      | some a => if a = 0 then SymOutcome.err Error.NullSymbol else SymOutcome.ok a
      | none => SymOutcome.err Error.SymbolNotFound) ∧
    Error.NullSymbol ≠ Error.SymbolNotFound := by
  subst h
  refine ⟨?_, by decide⟩
  cases hl : lib.lookup n with
  | none => simp [symbol_cstr, get_sym, hl]
  | some a => by_cases ha : a = 0 <;> simp [symbol_cstr, get_sym, hl, ha]

/-- Witness for C1 at the concrete table `exLib`: non-null, null and absent
names land in the three distinct outcomes. -/
theorem resolve_symbol_three_way_split_witness :
    symbol_cstr 8 exLib nameA = SymOutcome.ok 5 ∧
    symbol_cstr 8 exLib nameB = SymOutcome.err Error.NullSymbol ∧
    symbol_cstr 8 exLib nameC = SymOutcome.err Error.SymbolNotFound :=
  ⟨((resolve_symbol_three_way_split 8 exLib nameA rfl).1).trans (by decide),
   ((resolve_symbol_three_way_split 8 exLib nameB rfl).1).trans (by decide),
   ((resolve_symbol_three_way_split 8 exLib nameC rfl).1).trans (by decide)⟩

/-- Claim C4: for every type whose size differs from a pointer's size,
asking the library to resolve a symbol as that type is a fatal precondition
failure (the size-mismatch panic) reported before any backend symbol lookup
is attempted — the outcome does not depend on the library or the name. -/
theorem size_mismatch_fatal_before_lookup (tSize : Nat) (lib lib' : RawLib)
    (n n' : Name) (h : tSize ≠ ptrSize) :
    symbol_cstr tSize lib n = SymOutcome.sizeMismatchPanic ∧
    symbol_cstr tSize lib n = symbol_cstr tSize lib' n' := by
  constructor <;> simp [symbol_cstr, h]

/-- Witness for C4: requesting a 4-byte type panics identically on two
different libraries and names. -/
theorem size_mismatch_fatal_before_lookup_witness :
    symbol_cstr 4 exLib nameA = SymOutcome.sizeMismatchPanic ∧
    symbol_cstr 4 exLib nameA = symbol_cstr 4 ⟨[]⟩ nameC :=
  size_mismatch_fatal_before_lookup 4 exLib ⟨[]⟩ nameA nameC (by decide)

/-- Claim C8: for every symbol name containing an embedded null byte,
resolution through the Rust-string entry point fails with `EncodingError`,
and no backend lookup is performed — the outcome is independent of the
library. -/
theorem embedded_nul_encoding_error (tSize : Nat) (lib lib' : RawLib)
    (n : Name) (h : n.contains 0 = true) :
    symbol tSize lib n = SymOutcome.err Error.EncodingError ∧
    symbol tSize lib n = symbol tSize lib' n := by
  have hm : 0 ∈ n := by simpa using h
  constructor <;> simp [symbol, hm]

/-- Witness for C8: a name with an interior NUL byte fails with
`EncodingError` on two different libraries. -/
theorem embedded_nul_encoding_error_witness :
    symbol 8 exLib [97, 0, 98] = SymOutcome.err Error.EncodingError ∧
    symbol 8 exLib [97, 0, 98] = symbol 8 ⟨[]⟩ [97, 0, 98] :=
  embedded_nul_encoding_error 8 exLib ⟨[]⟩ [97, 0, 98] (by decide)

/-- Claim C5: loading never fails on an `Option`-wrapped field — a null
symbol and an absent symbol both become the explicit absent state `none`, a
non-null address becomes `some` — the presence-query accessor reports
exactly presence, and the code generator maps every `Option`-shaped field to
the optional loading strategy. -/
theorem optional_field_never_fails (lib : RawLib) (n : Name) (s : FieldShape) :
    optional_field lib n =
      Except.ok (match lib.lookup n with
        | some a => if a = 0 then none else some a
        | none => none) ∧
    (∀ f : Option Nat, has_field f = f.isSome) ∧
    field_to_tokens (FieldShape.optionOf s) false = Except.ok LoadStrategy.optional := by
  refine ⟨?_, fun f => rfl, rfl⟩
  cases hl : lib.lookup n with
  | none => simp [optional_field, symbol_cstrE, get_sym, hl]
  | some a =>
    by_cases ha : a = 0 <;> simp [optional_field, symbol_cstrE, get_sym, hl, ha]

/-- Claim C10: an allow-null raw-pointer field converts only a null-symbol
outcome into a null pointer value, while an absent symbol still aborts the
whole load with the symbol-getting error; an `Option`-wrapped field absorbs
both outcomes as absent. -/
theorem allow_null_vs_optional_strictness (lib : RawLib) (n : Name) :
    allow_null_field lib n =
      (match lib.lookup n with
       | some a => Except.ok (if a = 0 then 0 else a)
       | none => Except.error Error.SymbolNotFound) ∧
    optional_field lib n =
      Except.ok (match lib.lookup n with
        | some a => if a = 0 then none else some a
        | none => none) := by
  constructor <;>
  · cases hl : lib.lookup n with
    | none =>
      simp [allow_null_field, optional_field, symbol_cstrE, get_sym, hl]
    | some a =>
      by_cases ha : a = 0 <;>
        simp [allow_null_field, optional_field, symbol_cstrE, get_sym, hl, ha]

/-- Claim C2: `Container::load` is all-or-nothing — if resolving the API
fails, the already-opened library is dropped (its handle closed), the error
is propagated, and no container value is produced: the set of open handles
after the failed load is exactly the set before it. -/
theorem container_load_all_or_nothing (Api : Type) (st : LoaderState)
    (lib : RawLib) (apiLoad : RawLib → Except Error Api) (e : Error)
    (h : apiLoad lib = .error e) :
    Container.load Api st (some lib) apiLoad =
      (.error e, ⟨st.nextHandle + 1, st.opened⟩) := by
  simp [Container.load, Library.openSt, Library.dropSt, h, List.erase_cons_head]

/-- Witness for C2: an API loader that fails leaves the loader state with no
open handle and yields the propagated error, not a container. -/
theorem container_load_all_or_nothing_witness :
    Container.load Nat ⟨0, []⟩ (some exLib)
        (fun _ => .error Error.SymbolNotFound) =
      (.error Error.SymbolNotFound, ⟨1, []⟩) :=
  container_load_all_or_nothing Nat ⟨0, []⟩ exLib
    (fun _ => .error Error.SymbolNotFound) Error.SymbolNotFound rfl

/-- Claim C6: when the mandatory API resolves, `OptionalContainer::load`
succeeds regardless of the optional API — the optional result is collapsed
to an `Option` stored in the `optional` field (errors becoming `none`), and
the `WrapperApi` impl for `Option` never returns an error at all. -/
theorem optional_container_mandatory_only (Api Opt : Type) (st : LoaderState)
    (lib : RawLib) (apiLoad : RawLib → Except Error Api)
    (optLoad : RawLib → Except Error Opt) (a : Api)
    (h : apiLoad lib = .ok a) :
    OptionalContainer.load Api Opt st (some lib) apiLoad optLoad =
      (.ok ⟨st.nextHandle, a, (optLoad lib).toOption⟩,
        ⟨st.nextHandle + 1, st.nextHandle :: st.opened⟩) ∧
    ∀ e : Error, optionWrapperApiLoad Opt optLoad lib ≠ .error e := by
  constructor
  · simp [OptionalContainer.load, Library.openSt, h]
  · intro e
    unfold optionWrapperApiLoad
    cases optLoad lib <;> simp

/-- Witness for C6: with a failing optional loader the container still
loads, its optional slot absent. -/
theorem optional_container_mandatory_only_witness :
    OptionalContainer.load Nat Nat ⟨0, []⟩ (some exLib) (fun _ => .ok 1)
        (fun _ => .error Error.SymbolNotFound) =
      (.ok ⟨0, 1, none⟩, ⟨1, [0]⟩) :=
  (optional_container_mandatory_only Nat Nat ⟨0, []⟩ exLib (fun _ => .ok 1)
    (fun _ => .error Error.SymbolNotFound) 1 rfl).1

/-- Claim C9: round-trip through a mutable data symbol — writing a value
through a resolved mutable reference and then re-resolving the same name
(resolution is a pure function of the library and name, so the same address
comes back) observes the written value. -/
theorem mutable_symbol_round_trip (lib : RawLib) (n : Name) (a a' : Nat)
    (v : Int) (m : Mem) (h : symbol_cstr ptrSize lib n = SymOutcome.ok a)
    (h' : symbol_cstr ptrSize lib n = SymOutcome.ok a') :
    Mem.read (Mem.write m a v) a' = v := by
  rw [h] at h'
  injection h' with hh
  subst hh
  simp [Mem.read, Mem.write]

/-- Witness for C9: write 7 through the reference resolved for `nameA`,
re-resolve, read 7. -/
theorem mutable_symbol_round_trip_witness :
    Mem.read (Mem.write (fun _ => 0) 5 7) 5 = 7 :=
  mutable_symbol_round_trip exLib nameA 5 5 7 (fun _ => 0) (by decide) (by decide)

/-- Claim C3 is false on the code: both container structs declare the
`lib` field before the `api` field, and Rust drops struct fields in
declaration order, so for a container with one API field the library is
unloaded by the first drop event, not the last. -/
theorem container_drop_order_counterexample :
    (Container.dropEvents 1).head? = some DropEvent.unloadLib ∧
    (Container.dropEvents 1).getLast? ≠ some DropEvent.unloadLib := by
  decide

/-- Claim C3 (amended): on destruction the library is unloaded first and
the API fields are discarded after it; this cannot dangle because every
field shape the code generator accepts (bare functions, references, raw
pointers, `Option` of a bare function or reference) has no drop glue, so
tearing down the API structure performs no operation. -/
theorem container_drop_lib_first_api_noop (numApiFields : Nat)
    (s : FieldShape) (h : field_to_wrapper_ok s = true) :
    (Container.dropEvents numApiFields).head? = some DropEvent.unloadLib ∧
    DropEvent.unloadLib ∉ (Container.dropEvents numApiFields).tail ∧
    FieldShape.hasDropGlue s = false := by
  refine ⟨rfl, ?_, ?_⟩
  · simp [Container.dropEvents]
  · cases s with
    | bareFn => rfl
    | reference m => rfl
    | rawPtr m => rfl
    | otherPath => exact absurd h (by decide)
    | optionOf inner =>
      cases inner with
      | bareFn => rfl
      | reference m => rfl
      | rawPtr m => exact Bool.noConfusion h
      | optionOf i2 => exact Bool.noConfusion h
      | otherPath => exact Bool.noConfusion h

/-- Witness for the amended C3: a one-field container of a bare-function
field unloads first and drops a glue-free field after. -/
theorem container_drop_lib_first_api_noop_witness :
    (Container.dropEvents 1).head? = some DropEvent.unloadLib ∧
    DropEvent.unloadLib ∉ (Container.dropEvents 1).tail ∧
    FieldShape.hasDropGlue FieldShape.bareFn = false :=
  container_drop_lib_first_api_noop 1 FieldShape.bareFn rfl

/-- Claim C7 is false on the code: a bare-function field carrying the
allow-null marker is rejected at code-generation time with a panic — no
loader and no accessor are ever produced for a nullable function pointer. -/
theorem nullable_fn_ptr_rejected :
    field_to_tokens FieldShape.bareFn true =
      Except.error "Only pointers can have the dlopen2_allow_null attribute assigned" := by
  rfl

/-- Claim C7 (amended): for every raw-pointer field explicitly marked
nullable, the generator emits the allow-null loading strategy, and loading
does not fail when the symbol resolves to null — the field materializes as
the null pointer value (address 0). -/
theorem nullable_raw_ptr_null_ok (mutable : Bool) (lib : RawLib) (n : Name)
    (h : lib.lookup n = some 0) :
    field_to_tokens (FieldShape.rawPtr mutable) true =
      Except.ok LoadStrategy.allowNull ∧
    allow_null_field lib n = Except.ok 0 := by
  refine ⟨rfl, ?_⟩
  simp [allow_null_field, symbol_cstrE, get_sym, h]

/-- Witness for the amended C7: `nameB` is exported null in `exLib`; a
nullable raw-pointer field for it loads as the null pointer. -/
theorem nullable_raw_ptr_null_ok_witness :
    field_to_tokens (FieldShape.rawPtr true) true =
      Except.ok LoadStrategy.allowNull ∧
    allow_null_field exLib nameB = Except.ok 0 :=
  nullable_raw_ptr_null_ok true exLib nameB (by decide)

end Dlopen2
